import Mathlib

/-!
Verification of the event-impact correlation engine of the Data Detective
repository (`2.SCRIPTS/procesamiento/correlacion_eventos.py`).

Shallow embedding conventions:
* Floating-point values are modelled as exact rationals (`ℚ`); a `NaN`
  missing-value marker is modelled as `none` in an `Option ℚ`.
* Calendar dates are modelled as absolute day numbers (`Nat`); timestamps
  are modelled as absolute hour numbers, whose date portion is `ts / 24`.
  The calendar-month and day-of-week functions supplied by pandas
  (`.dt.month`, `.dt.dayofweek`) are external to the program and are
  modelled as an abstract `Cal` record of functions, so every theorem
  holds for an arbitrary calendar.
* `pd.to_datetime` event-date parsing and the md5 digest used by
  `_generate_event_id` are likewise external library functions; they are
  modelled as function parameters (`p : String → Option Nat`,
  `digest : String → String`).  Every theorem below is proved for all
  such functions, hence in particular for the real parser and md5.
* Python `round(x, n)` (round half to even on the decimal value) is
  modelled exactly on rationals by `pyRound`; binary floating-point
  representation error is abstracted away.
-/

namespace DataDetective

section

attribute [local semireducible] Rat.add Rat.mul Rat.inv Rat.sub

/-- Lexicographic comparison of char lists by code point (the string
order Python's `sorted` uses). -/
def lexLe : List Char → List Char → Bool
  | [], _ => true
  | _ :: _, [] => false
  | a :: as, b :: bs =>
    if a.val.toNat < b.val.toNat then true
    else if b.val.toNat < a.val.toNat then false
    else lexLe as bs

/-- Python's `<=` on strings. -/
def strLe (a b : String) : Bool := lexLe a.data b.data

/-- Insert into a sorted list of strings. -/
def insertStr (a : String) : List String → List String
  | [] => [a]
  | b :: rest => if strLe a b then a :: b :: rest else b :: insertStr a rest

/-- Python's `sorted` on a list of strings. -/
def sortStrs : List String → List String
  | [] => []
  | a :: rest => insertStr a (sortStrs rest)

/-- Abstract calendar: the month and day-of-week functions applied by
pandas to a day number.  `correlacion_eventos.py` only ever compares the
values these functions return, so all results are proved for an arbitrary
calendar. -/
structure Cal where
  month : Nat → Nat
  weekday : Nat → Nat

/-- Mean of a list of defined values: pandas `Series.mean` on a column
with no nulls gives `NaN` exactly when the column is empty. -/
def meanQ (xs : List ℚ) : Option ℚ :=
  if xs.isEmpty then none else some (xs.sum / (xs.length : ℚ))

/-- pandas `Series.mean` with `skipna` (the default): nulls are dropped,
and the mean of an all-null column is again null. -/
def meanOpt (xs : List (Option ℚ)) : Option ℚ :=
  meanQ (xs.filterMap id)

/-- Floor of a rational, computed with integer floor division. -/
def floorQ (q : ℚ) : ℤ := Int.fdiv q.num (q.den : ℤ)

/-- Round a rational to the nearest integer, ties to even
(Python / IEEE-754 `round` tie-breaking). -/
def halfEvenZ (q : ℚ) : ℤ :=
  let f := floorQ q
  let r : ℚ := q - (f : ℚ)
  if r < 1/2 then f
  else if 1/2 < r then f + 1
  else if f % 2 = 0 then f else f + 1

/-- Python `round(q, ndigits)` on the exact rational value. -/
def pyRound (ndigits : Nat) (q : ℚ) : ℚ :=
  ((halfEvenZ (q * (10 : ℚ) ^ ndigits) : ℚ)) / (10 : ℚ) ^ ndigits

/-- Date portion of a timestamp expressed in hours (`.dt.date`). -/
def dayOfTs (ts : Nat) : Nat := ts / 24

/-- The constant `PRECIPITACION_UMBRAL_MM = 5.0` from the configuration
block. -/
def precipitacionUmbralMm : ℚ := 5

/-! ### Input schemas (cleaned upstream tables consumed by the core) -/

/-- One row of `contaminacion_normalizada.parquet`
(`fecha_utc, variable, valor, calidad_dato`).  The upstream normalizer
guarantees that a row whose `calidad_dato` is `"ok"` carries a non-null
`valor` (null values are flagged `"missing"`), so `valor` is total here. -/
structure ContamRaw where
  fechaUtc : Nat
  variable' : String
  valor : ℚ
  calidad : String
deriving DecidableEq, Repr

/-- One row of `trafico_limpio.csv`; the daily aggregation only counts
rows per date, so only the timestamp and the incident payload appear. -/
structure TrafRaw where
  fecha : Nat
  incidencias : String
deriving DecidableEq, Repr

/-- One row of `meteorologia_limpio.csv`; the cleaned weather table
documents `precipitacion_mm` and `temp_c` as "NaN si no disponible",
hence both are `Option`. -/
structure MeteoRaw where
  fecha : Nat
  precipMm : Option ℚ
  tempC : Option ℚ
deriving DecidableEq, Repr

/-! ### Daily aggregation schemas (step 2 of the pipeline) -/

/-- One row of `contam_diaria`: `fecha | variable | valor_medio | n_registros`. -/
structure DailyContam where
  fecha : Nat
  variable' : String
  valorMedio : ℚ
  nRegistros : Nat
deriving DecidableEq, Repr

/-- One row of `trafico_diario`: `fecha | n_incidencias`. -/
structure DailyTraf where
  fecha : Nat
  nIncidencias : Nat
deriving DecidableEq, Repr

/-- One row of `meteo_diaria`: `fecha | precip_media | temp_media`; the
per-day means are null when every underlying reading of that day was null. -/
structure MeteoDaily where
  fecha : Nat
  precipMedia : Option ℚ
  tempMedia : Option ℚ
deriving DecidableEq, Repr

/-! ### Daily Aggregator (`build_daily_aggregations`, step 2A-2C) -/

/-- Step 2A quality filter: `df_contam[df_contam["calidad_dato"] == "ok"]`. -/
def okContam (rs : List ContamRaw) : List ContamRaw :=
  rs.filter (fun r => r.calidad == "ok")

/-- The values of the valid readings of one `(day, variable)` group. -/
def contamGroupVals (rs : List ContamRaw) (d : Nat) (v : String) : List ℚ :=
  ((okContam rs).filter
    (fun r => dayOfTs r.fechaUtc == d && r.variable' == v)).map (·.valor)

/-- Step 2A: group the quality-filtered pollution rows by
`(date portion, variable)` and take the per-group mean and count. -/
def contamDiariaOf (rs : List ContamRaw) : List DailyContam :=
  (((okContam rs).map (fun r => (dayOfTs r.fechaUtc, r.variable'))).dedup).map
    (fun k =>
      { fecha := k.1
        variable' := k.2
        valorMedio := (contamGroupVals rs k.1 k.2).sum /
          ((contamGroupVals rs k.1 k.2).length : ℚ)
        nRegistros := (contamGroupVals rs k.1 k.2).length })

/-- Step 2B: group the traffic rows by date portion and count rows per day. -/
def traficoDiarioOf (ts : List TrafRaw) : List DailyTraf :=
  ((ts.map (fun r => dayOfTs r.fecha)).dedup).map
    (fun d =>
      { fecha := d
        nIncidencias := (ts.filter (fun r => dayOfTs r.fecha == d)).length })

/-- Step 2C: group the weather rows by date portion and take the per-day
(null-skipping) means of precipitation and temperature. -/
def meteoDiariaOf (ms : List MeteoRaw) : List MeteoDaily :=
  ((ms.map (fun r => dayOfTs r.fecha)).dedup).map
    (fun d =>
      { fecha := d
        precipMedia :=
          meanOpt ((ms.filter (fun r => dayOfTs r.fecha == d)).map (·.precipMm))
        tempMedia :=
          meanOpt ((ms.filter (fun r => dayOfTs r.fecha == d)).map (·.tempC)) })

/-- The function `build_daily_aggregations`: each daily table is `none`
when its input
table was absent or empty, mirroring the `is not None and not empty`
guards of steps 2A-2C. -/
def buildDailyAggregations (dfContam : Option (List ContamRaw))
    (dfTraf : Option (List TrafRaw)) (dfMeteo : Option (List MeteoRaw)) :
    Option (List DailyContam) × Option (List DailyTraf) × Option (List MeteoDaily) :=
  (dfContam.bind (fun l => if l.isEmpty then none else some (contamDiariaOf l)),
   dfTraf.bind (fun l => if l.isEmpty then none else some (traficoDiarioOf l)),
   dfMeteo.bind (fun l => if l.isEmpty then none else some (meteoDiariaOf l)))

/-! ### Event Normalizer (`parse_and_deduplicate_events`, step 3) -/

/-- A raw event dictionary from `eventos_clasificados.json`; a `none`
field models an absent key. -/
structure RawEvent where
  nombre : Option String := none
  rival : Option String := none
  fechaInicio : Option String := none
  fechaFin : Option String := none
  tipo : Option String := none
  impactoEsperado : Option String := none
  fuente : Option String := none
deriving DecidableEq, Repr

/-- A normalized event (the dict built at lines 453-461 of the source). -/
structure Event where
  eventoId : String
  nombre : String
  tipoEvento : String
  impactoEsperado : String
  fuenteEvento : String
  fechaInicio : Nat
  fechaFin : Nat
deriving DecidableEq, Repr

/-- Python `str.strip()`: drop whitespace from both ends. -/
def strTrim (s : String) : String :=
  ⟨((s.data.dropWhile Char.isWhitespace).reverse.dropWhile
      Char.isWhitespace).reverse⟩

/-- The function `_parse_event_date`: empty / whitespace-only strings
parse to `None`;
otherwise the stripped string is handed to the external parser `p`. -/
def parseEventDate (p : String → Option Nat) (s : String) : Option Nat :=
  if (strTrim s).data.isEmpty then none else p (strTrim s)

/-- The hash input of `_generate_event_id`:
`f"{nombre}|{fecha_ini}|{fuente}"` with the dict-lookup defaults of
lines 391-393. -/
def rawIdString (ev : RawEvent) : String :=
  (ev.nombre.getD (ev.rival.getD "desconocido")) ++ "|" ++
    ev.fechaInicio.getD "" ++ "|" ++ ev.fuente.getD ""

/-- The function `_generate_event_id`, with the md5-then-truncate digest
abstracted as
the function parameter `digest`. -/
def generateEventId (digest : String → String) (ev : RawEvent) : String :=
  digest (rawIdString ev)

/-- The per-record body of the parsing loop (lines 427-461): drop the
record when its start date does not parse, default a missing end date to
the start date, and swap the two dates when they arrive inverted. -/
def parseOne (p : String → Option Nat) (digest : String → String)
    (ev : RawEvent) : Option Event :=
  match parseEventDate p (ev.fechaInicio.getD "") with
  | none => none
  | some fi =>
    let ff := (parseEventDate p (ev.fechaFin.getD "")).getD fi
    some
      { eventoId := generateEventId digest ev
        nombre := ev.nombre.getD (ev.rival.getD "Evento desconocido")
        tipoEvento := ev.tipo.getD "desconocido"
        impactoEsperado := ev.impactoEsperado.getD "desconocido"
        fuenteEvento := ev.fuente.getD "desconocida"
        fechaInicio := if ff < fi then ff else fi
        fechaFin := if ff < fi then fi else ff }

/-- The list of successfully parsed events, in input order. -/
def parsedEvents (p : String → Option Nat) (digest : String → String)
    (raws : List RawEvent) : List Event :=
  raws.filterMap (parseOne p digest)

/-- The deduplication loop of lines 472-477: keep an event when its id
has not been seen yet. -/
def dedupGo : List Event → List String → List Event
  | [], _ => []
  | e :: rest, seen =>
    if seen.contains e.eventoId then dedupGo rest seen
    else e :: dedupGo rest (e.eventoId :: seen)

/-- The function `parse_and_deduplicate_events`. -/
def parseAndDeduplicateEvents (p : String → Option Nat)
    (digest : String → String) (raws : List RawEvent) : List Event :=
  dedupGo (parsedEvents p digest raws) []

/-! ### Baseline Selector (`_get_all_event_dates`, `_build_baseline_mask`) -/

/-- The range `pd.date_range(start, end, freq="D")` at day granularity:
inclusive,
empty when `start > end`. -/
def dateRange (s e : Nat) : List Nat :=
  (List.range (e + 1 - s)).map (fun i => s + i)

/-- The function `_get_all_event_dates`: the set of all days covered by
some event. -/
def allEventDates (events : List Event) : List Nat :=
  (events.flatMap (fun ev => dateRange ev.fechaInicio ev.fechaFin)).dedup

/-- The precipitation value the rain filter sees for day `d`: `none` when
the weather table is absent, has no row for `d`, or has a row whose
`precip_media` is null. -/
def precipAt (meteoD : Option (List MeteoDaily)) (d : Nat) : Option ℚ :=
  match meteoD with
  | none => none
  | some m => (m.find? (fun r => r.fecha == d)).bind (·.precipMedia)

/-- Criterion 4 of `_build_baseline_mask` (`mask_no_rain`): all-true when
the daily weather table is absent or empty; otherwise a day passes when
it has no precipitation datum (`NaN ≤ 5 → True` in the source comment)
or its mean precipitation is at most the 5 mm threshold. -/
def maskNoRain (meteoD : Option (List MeteoDaily)) (d : Nat) : Bool :=
  match meteoD with
  | none => true
  | some m =>
    if m.isEmpty then true
    else
      match (m.find? (fun r => r.fecha == d)).bind (·.precipMedia) with
      | none => true
      | some v => decide (v ≤ precipitacionUmbralMm)

/-- The function `_build_baseline_mask` as the per-day predicate behind
the boolean
mask: same month as some event day, same weekday as some event day, not
covered by any event, and no significant precipitation. -/
def baselineDay (cal : Cal) (ev : Event) (allDates : List Nat)
    (meteoD : Option (List MeteoDaily)) (d : Nat) : Bool :=
  let eventRange := dateRange ev.fechaInicio ev.fechaFin
  let maskMonth := (eventRange.map cal.month).contains (cal.month d)
  let maskWeekday := (eventRange.map cal.weekday).contains (cal.weekday d)
  let maskNoEvent := !(allDates.contains d)
  maskMonth && maskWeekday && maskNoEvent && maskNoRain meteoD d

/-! ### Impact Calculator (`compute_event_impact`, step 4) -/

/-- Guarded percentage-impact formula of lines 685-693 and 733-742:
defined only when both means are defined and the baseline mean is
strictly positive. -/
def impactoPctCore (mEv mBl : Option ℚ) : Option ℚ :=
  match mEv, mBl with
  | some e, some b => if 0 < b then some ((e - b) / b * 100) else none
  | _, _ => none

/-- The available pollution variables: `sorted(unique)` when the daily
pollution table is present and non-empty, else the empty list. -/
def variablesOf (contamD : Option (List DailyContam)) : List String :=
  match contamD with
  | none => []
  | some l =>
    if l.isEmpty then []
    else sortStrs ((l.map (·.variable')).dedup)

/-- The selection `df_var` of the rows of one pollution variable. -/
def dfVarOf (contamList : List DailyContam) (v : String) : List DailyContam :=
  contamList.filter (fun r => r.variable' == v)

/-- The rows of one variable that fall on event days (`datos_ev`). -/
def datosEvOf (contamList : List DailyContam) (eventDates : List Nat)
    (v : String) : List DailyContam :=
  (dfVarOf contamList v).filter (fun r => eventDates.contains r.fecha)

/-- The rows of one variable selected by the baseline mask (`datos_bl`). -/
def datosBlOf (cal : Cal) (contamList : List DailyContam) (ev : Event)
    (allDates : List Nat) (meteoD : Option (List MeteoDaily))
    (v : String) : List DailyContam :=
  (dfVarOf contamList v).filter
    (fun r => baselineDay cal ev allDates meteoD r.fecha)

/-- The once-per-event traffic impact of lines 663-693: event-window mean
of the daily incident counts against the event's own traffic baseline,
`none` when the traffic table is absent or empty or a mean is undefined
or the baseline mean is not positive. -/
def trafficImpactPctOf (cal : Cal) (trafD : Option (List DailyTraf))
    (meteoD : Option (List MeteoDaily)) (allDates : List Nat)
    (ev : Event) : Option ℚ :=
  match trafD with
  | none => none
  | some t =>
    if t.isEmpty then none
    else
      let eventDates := dateRange ev.fechaInicio ev.fechaFin
      let mEv := meanQ ((t.filter (fun r => eventDates.contains r.fecha)).map
        (fun r => (r.nIncidencias : ℚ)))
      let mBl := meanQ ((t.filter
        (fun r => baselineDay cal ev allDates meteoD r.fecha)).map
        (fun r => (r.nIncidencias : ℚ)))
      impactoPctCore mEv mBl

/-- Descriptive weather context of lines 634-661: event-window and
baseline-window means of temperature and precipitation. -/
structure MeteoCtx where
  tempEv : Option ℚ
  tempBl : Option ℚ
  precipEv : Option ℚ
  precipBl : Option ℚ
deriving DecidableEq, Repr

/-- Compute the weather context for one event. -/
def meteoContext (cal : Cal) (meteoD : Option (List MeteoDaily))
    (allDates : List Nat) (ev : Event) : MeteoCtx :=
  match meteoD with
  | none => ⟨none, none, none, none⟩
  | some m =>
    if m.isEmpty then ⟨none, none, none, none⟩
    else
      let eventDates := dateRange ev.fechaInicio ev.fechaFin
      let meteoEv := m.filter (fun r => eventDates.contains r.fecha)
      let meteoBl := m.filter
        (fun r => baselineDay cal ev allDates (some m) r.fecha)
      { tempEv := if meteoEv.isEmpty then none
          else meanOpt (meteoEv.map (·.tempMedia))
        tempBl := if meteoBl.isEmpty then none
          else meanOpt (meteoBl.map (·.tempMedia))
        precipEv := if meteoEv.isEmpty then none
          else meanOpt (meteoEv.map (·.precipMedia))
        precipBl := if meteoBl.isEmpty then none
          else meanOpt (meteoBl.map (·.precipMedia)) }

/-- One row of the output table `impacto_eventos.csv`, in the fixed
column order of lines 809-827.  The date span is kept as day numbers
(the source serializes them as `YYYY-MM-DD` strings). -/
structure ImpactRow where
  eventoId : String
  nombreEvento : String
  tipoEvento : String
  impactoEsperado : String
  fechaInicio : Nat
  fechaFin : Nat
  variable' : String
  mediaEvento : Option ℚ
  mediaBaseline : Option ℚ
  impactoPct : Option ℚ
  nDiasEvento : Nat
  nDiasBaseline : Nat
  mediaTempEvento : Option ℚ
  mediaTempBaseline : Option ℚ
  mediaPrecipEvento : Option ℚ
  mediaPrecipBaseline : Option ℚ
  impactoTraficoPct : Option ℚ
deriving DecidableEq, Repr

/-- The per-variable result row of lines 744-762. -/
def mkVarRow (cal : Cal) (contamList : List DailyContam)
    (trafD : Option (List DailyTraf)) (meteoD : Option (List MeteoDaily))
    (allDates : List Nat) (ev : Event) (v : String) : ImpactRow :=
  let eventDates := dateRange ev.fechaInicio ev.fechaFin
  let datosEv := datosEvOf contamList eventDates v
  let datosBl := datosBlOf cal contamList ev allDates meteoD v
  let mEv := meanQ (datosEv.map (·.valorMedio))
  let mBl := meanQ (datosBl.map (·.valorMedio))
  let ctx := meteoContext cal meteoD allDates ev
  { eventoId := ev.eventoId
    nombreEvento := ev.nombre
    tipoEvento := ev.tipoEvento
    impactoEsperado := ev.impactoEsperado
    fechaInicio := ev.fechaInicio
    fechaFin := ev.fechaFin
    variable' := v
    mediaEvento := mEv.map (pyRound 2)
    mediaBaseline := mBl.map (pyRound 2)
    impactoPct := (impactoPctCore mEv mBl).map (pyRound 2)
    nDiasEvento := ((datosEv.map (·.fecha)).dedup).length
    nDiasBaseline := ((datosBl.map (·.fecha)).dedup).length
    mediaTempEvento := ctx.tempEv.map (pyRound 1)
    mediaTempBaseline := ctx.tempBl.map (pyRound 1)
    mediaPrecipEvento := ctx.precipEv.map (pyRound 2)
    mediaPrecipBaseline := ctx.precipBl.map (pyRound 2)
    impactoTraficoPct := (trafficImpactPctOf cal trafD meteoD allDates ev).map
      (pyRound 2) }

/-- The traffic-only result row of lines 774-792, emitted when no
pollution variable is available (`variable = "sin_datos"`). -/
def sinDatosRow (cal : Cal) (trafD : Option (List DailyTraf))
    (meteoD : Option (List MeteoDaily)) (allDates : List Nat)
    (ev : Event) : ImpactRow :=
  let ctx := meteoContext cal meteoD allDates ev
  { eventoId := ev.eventoId
    nombreEvento := ev.nombre
    tipoEvento := ev.tipoEvento
    impactoEsperado := ev.impactoEsperado
    fechaInicio := ev.fechaInicio
    fechaFin := ev.fechaFin
    variable' := "sin_datos"
    mediaEvento := none
    mediaBaseline := none
    impactoPct := none
    nDiasEvento := (dateRange ev.fechaInicio ev.fechaFin).length
    nDiasBaseline := 0
    mediaTempEvento := ctx.tempEv.map (pyRound 1)
    mediaTempBaseline := ctx.tempBl.map (pyRound 1)
    mediaPrecipEvento := ctx.precipEv.map (pyRound 2)
    mediaPrecipBaseline := ctx.precipBl.map (pyRound 2)
    impactoTraficoPct := (trafficImpactPctOf cal trafD meteoD allDates ev).map
      (pyRound 2) }

/-- The rows generated for one event by the body of the loop at
lines 621-797. -/
def rowsForEvent (cal : Cal) (contamD : Option (List DailyContam))
    (trafD : Option (List DailyTraf)) (meteoD : Option (List MeteoDaily))
    (allDates : List Nat) (ev : Event) : List ImpactRow :=
  let contamList := contamD.getD []
  let vars := variablesOf contamD
  if vars.isEmpty then [sinDatosRow cal trafD meteoD allDates ev]
  else
    vars.flatMap (fun v =>
      if (dfVarOf contamList v).isEmpty then []
      else [mkVarRow cal contamList trafD meteoD allDates ev v])

/-- The function `compute_event_impact`. -/
def computeEventImpact (cal : Cal) (events : List Event)
    (contamD : Option (List DailyContam)) (trafD : Option (List DailyTraf))
    (meteoD : Option (List MeteoDaily)) : List ImpactRow :=
  if events.isEmpty then []
  else events.flatMap
    (rowsForEvent cal contamD trafD meteoD (allEventDates events))

/-! ### `main` control flow (decision structure only; I/O abstracted) -/

/-- The decision structure of `main`: `none` models the early-return
error paths ("Abortando", no output file written), `some rows` models a
completed run that hands `rows` to `save_results`.  The loaded inputs
are parameters, since `load_data` is pure I/O. -/
def mainOutcome (cal : Cal) (dfContam : Option (List ContamRaw))
    (dfTraf : Option (List TrafRaw)) (dfMeteo : Option (List MeteoRaw))
    (eventosRaw : Option (List RawEvent)) (p : String → Option Nat)
    (digest : String → String) : Option (List ImpactRow) :=
  match eventosRaw with
  | none => none
  | some raws =>
    if raws.isEmpty then none
    else if dfContam.isNone && dfTraf.isNone then none
    else
      let daily := buildDailyAggregations dfContam dfTraf dfMeteo
      let events := parseAndDeduplicateEvents p digest raws
      if events.isEmpty then none
      else some (computeEventImpact cal events daily.1 daily.2.1 daily.2.2)

/-! ### Concrete sample data used to instantiate the theorems below -/

/-- A sample calendar: every day in month 1, weekday cycling mod 7. -/
def calEx : Cal := ⟨fun _ => 1, fun d => d % 7⟩

/-- A sample one-day event on day 10. -/
def evEx : Event :=
  { eventoId := "e1", nombre := "Ev", tipoEvento := "t"
    impactoEsperado := "alto", fuenteEvento := "src"
    fechaInicio := 10, fechaFin := 10 }

/-- A sample daily pollution table: one event-day value and one
baseline-day value (day 3 shares month and weekday with day 10 under
`calEx` and is covered by no event). -/
def contamEx : List DailyContam :=
  [{ fecha := 10, variable' := "NO2", valorMedio := 4, nRegistros := 1 },
   { fecha := 3, variable' := "NO2", valorMedio := 3, nRegistros := 1 }]

/-- A sample daily traffic table: 4 incidents on the event day, 2 on the
baseline day. -/
def trafEx : List DailyTraf :=
  [{ fecha := 10, nIncidencias := 4 }, { fecha := 3, nIncidencias := 2 }]

/-- The row `computeEventImpact` produces from `evEx` and `contamEx`
with no traffic and no weather table. -/
def rowC1 : ImpactRow :=
  { eventoId := "e1", nombreEvento := "Ev", tipoEvento := "t"
    impactoEsperado := "alto", fechaInicio := 10, fechaFin := 10
    variable' := "NO2", mediaEvento := some 4, mediaBaseline := some 3
    impactoPct := some (3333/100), nDiasEvento := 1, nDiasBaseline := 1
    mediaTempEvento := none, mediaTempBaseline := none
    mediaPrecipEvento := none, mediaPrecipBaseline := none
    impactoTraficoPct := none }

/-- The same row when `trafEx` is also supplied: the traffic impact is
`(4 - 2) / 2 * 100 = 100`. -/
def rowC8 : ImpactRow :=
  { rowC1 with impactoTraficoPct := some 100 }

/-- A sample raw pollution table: two `ok` readings on day 0 plus an
`invalid` reading on day 1. -/
def contamRawEx : List ContamRaw :=
  [{ fechaUtc := 5, variable' := "NO2", valor := 10, calidad := "ok" },
   { fechaUtc := 6, variable' := "NO2", valor := 20, calidad := "ok" },
   { fechaUtc := 30, variable' := "NO2", valor := 7, calidad := "invalid" }]

/-- A sample raw traffic table: one record on day 0, two on day 1. -/
def trafRawEx : List TrafRaw :=
  [{ fecha := 5, incidencias := "a" }, { fecha := 30, incidencias := "b" },
   { fecha := 40, incidencias := "c" }]

/-- The day-0 row `contamDiariaOf contamRawEx` produces: mean 15 of the
two valid readings, count 2 (the `invalid` reading is ignored). -/
def contamRowEx : DailyContam :=
  { fecha := 0, variable' := "NO2", valorMedio := 15, nRegistros := 2 }

/-- The day-1 row `traficoDiarioOf trafRawEx` produces (two records). -/
def trafRowEx : DailyTraf := { fecha := 1, nIncidencias := 2 }

/-- A sample parse function for event-date strings. -/
def pEx : String → Option Nat := fun _ => some 5

/-- A parse function sending `"a"` to day 9 and anything else to day 4,
used to exercise the date swap. -/
def pInv : String → Option Nat := fun s => if s == "a" then some 9 else some 4

/-- A sample raw event record. -/
def rawEx : RawEvent :=
  { nombre := some "X", fechaInicio := some "d", fuente := some "f" }

/-- The same logical event as `rawEx` (same name, start-date string and
source) with a different end-date field. -/
def rawEx' : RawEvent :=
  { nombre := some "X", fechaInicio := some "d", fechaFin := some "zz"
    fuente := some "f" }

/-- A raw event whose parsed end date (4) precedes its parsed start
date (9) under `pInv`. -/
def rawInv : RawEvent :=
  { nombre := some "Y", fechaInicio := some "a", fechaFin := some "b"
    fuente := some "g" }

/-- The event `parseOne pEx (fun s => s) rawEx` produces. -/
def evParsedEx : Event :=
  { eventoId := "X|d|f", nombre := "X", tipoEvento := "desconocido"
    impactoEsperado := "desconocido", fuenteEvento := "f"
    fechaInicio := 5, fechaFin := 5 }

/-- The event `parseOne pInv (fun s => s) rawInv` produces (dates swapped). -/
def evInvParsed : Event :=
  { eventoId := "Y|a|g", nombre := "Y", tipoEvento := "desconocido"
    impactoEsperado := "desconocido", fuenteEvento := "g"
    fechaInicio := 4, fechaFin := 9 }

/-! ### Lemmas about the Event Normalizer -/

theorem mem_of_mem_dedupGo {l : List Event} {seen : List String} {e : Event}
    (h : e ∈ dedupGo l seen) : e ∈ l := by
  induction l generalizing seen with
  | nil => simp [dedupGo] at h
  | cons a rest ih =>
    rw [dedupGo] at h
    by_cases hc : seen.contains a.eventoId = true
    · rw [if_pos hc] at h
      exact List.mem_cons_of_mem a (ih h)
    · rw [if_neg hc] at h
      rcases List.mem_cons.mp h with rfl | h'
      · exact List.mem_cons_self _ _
      · exact List.mem_cons_of_mem _ (ih h')

theorem dedupGo_not_seen {l : List Event} {seen : List String} {e : Event}
    (h : e ∈ dedupGo l seen) : seen.contains e.eventoId = false := by
  induction l generalizing seen with
  | nil => simp [dedupGo] at h
  | cons a rest ih =>
    rw [dedupGo] at h
    by_cases hc : seen.contains a.eventoId = true
    · rw [if_pos hc] at h
      exact ih h
    · rw [if_neg hc] at h
      rcases List.mem_cons.mp h with rfl | h'
      · simpa using hc
      · have h2 := ih h'
        simp only [List.contains_cons, Bool.or_eq_false_iff] at h2
        exact h2.2

theorem dedupGo_pairwise (l : List Event) (seen : List String) :
    (dedupGo l seen).Pairwise (fun a b => a.eventoId ≠ b.eventoId) := by
  induction l generalizing seen with
  | nil => simp [dedupGo]
  | cons a rest ih =>
    rw [dedupGo]
    by_cases hc : seen.contains a.eventoId = true
    · rw [if_pos hc]
      exact ih _
    · rw [if_neg hc]
      refine List.Pairwise.cons ?_ (ih _)
      intro b hb heq
      have h2 := dedupGo_not_seen hb
      simp only [List.contains_cons, Bool.or_eq_false_iff, beq_eq_false_iff_ne,
        ne_eq] at h2
      exact h2.1 heq.symm

theorem dedupGo_find_first {l : List Event} {seen : List String} {e : Event}
    (h : e ∈ dedupGo l seen) :
    l.find? (fun x => x.eventoId == e.eventoId) = some e := by
  induction l generalizing seen with
  | nil => simp [dedupGo] at h
  | cons a rest ih =>
    rw [dedupGo] at h
    by_cases hc : seen.contains a.eventoId = true
    · rw [if_pos hc] at h
      have hne : e.eventoId ≠ a.eventoId := by
        intro heq
        have h2 := dedupGo_not_seen h
        rw [heq] at h2
        rw [hc] at h2
        cases h2
      rw [List.find?_cons_of_neg _ (by simpa using fun hh => hne hh.symm)]
      exact ih h
    · rw [if_neg hc] at h
      rcases List.mem_cons.mp h with rfl | h'
      · rw [List.find?_cons_of_pos _ (by simp)]
      · have h2 := dedupGo_not_seen h'
        simp only [List.contains_cons, Bool.or_eq_false_iff,
          beq_eq_false_iff_ne, ne_eq] at h2
        rw [List.find?_cons_of_neg _ (by simpa using fun hh => h2.1 hh.symm)]
        exact ih h'

theorem dedupGo_mem_id {l : List Event} {seen : List String} {x : Event}
    (hx : x ∈ l) (hs : seen.contains x.eventoId = false) :
    ∃ y ∈ dedupGo l seen, y.eventoId = x.eventoId := by
  induction l generalizing seen with
  | nil => simp at hx
  | cons a rest ih =>
    rw [dedupGo]
    rcases List.mem_cons.mp hx with rfl | hxr
    · rw [if_neg (by rw [hs]; simp)]
      exact ⟨_, List.mem_cons_self _ _, rfl⟩
    · by_cases hc : seen.contains a.eventoId = true
      · rw [if_pos hc]
        exact ih hxr hs
      · rw [if_neg hc]
        by_cases hax : x.eventoId = a.eventoId
        · exact ⟨a, List.mem_cons_self a _, hax.symm⟩
        · have hs2 : (a.eventoId :: seen).contains x.eventoId = false := by
            simp only [List.contains_cons, Bool.or_eq_false_iff,
              beq_eq_false_iff_ne, ne_eq]
            exact ⟨hax, hs⟩
          rcases ih hxr hs2 with ⟨y, hy, hyid⟩
          exact ⟨y, List.mem_cons_of_mem a hy, hyid⟩

theorem countP_key_eq_one {α : Type} (key : α → String) (l : List α)
    (i : String) (hp : l.Pairwise (fun a b => key a ≠ key b))
    (hex : ∃ y ∈ l, key y = i) :
    l.countP (fun x => key x == i) = 1 := by
  induction l with
  | nil =>
    rcases hex with ⟨y, hy, _⟩
    simp at hy
  | cons a rest ih =>
    rw [List.countP_cons]
    rcases hex with ⟨y, hy, hyi⟩
    rcases List.mem_cons.mp hy with rfl | hyr
    · have h0 : rest.countP (fun x => key x == i) = 0 := by
        rw [List.countP_eq_zero]
        intro x hx
        have hne := (List.pairwise_cons.mp hp).1 x hx
        simp only [beq_iff_eq]
        intro hxi
        exact hne (hyi.trans hxi.symm)
      simp [h0, hyi]
    · by_cases hai : key a = i
      · have hne := (List.pairwise_cons.mp hp).1 y hyr
        exact absurd (hai.trans hyi.symm) hne
      · have hrec := ih (List.pairwise_cons.mp hp).2 ⟨y, hyr, hyi⟩
        simp [hrec, hai]

theorem parseOne_le {p : String → Option Nat} {digest : String → String}
    {r : RawEvent} {e : Event} (h : parseOne p digest r = some e) :
    e.fechaInicio ≤ e.fechaFin := by
  unfold parseOne at h
  cases hfi : parseEventDate p (r.fechaInicio.getD "") with
  | none => rw [hfi] at h; cases h
  | some fi =>
    rw [hfi] at h
    simp only [Option.some.injEq] at h
    subst h
    simp only
    split <;> omega

theorem parseOne_swap {p : String → Option Nat} {digest : String → String}
    {r : RawEvent} {a b : Nat}
    (ha : parseEventDate p (r.fechaInicio.getD "") = some a)
    (hb : parseEventDate p (r.fechaFin.getD "") = some b) (hlt : b < a) :
    ∃ e, parseOne p digest r = some e ∧ e.fechaInicio = b ∧ e.fechaFin = a := by
  simp only [parseOne, ha]
  exact ⟨_, rfl, by simp [hb, hlt], by simp [hb, hlt]⟩

/-- Claim C5: parsing a list that contains the same logical event twice
yields exactly one event with that id; after deduplication every
`evento_id` occurs at most once, and the survivor for each id is the
first parsed occurrence. -/
theorem dedup_unique_first (p : String → Option Nat)
    (digest : String → String) (raws : List RawEvent) :
    (parseAndDeduplicateEvents p digest raws).Pairwise
      (fun a b => a.eventoId ≠ b.eventoId)
    ∧ (∀ r ∈ raws, ∀ e, parseOne p digest r = some e →
        (parseAndDeduplicateEvents p digest raws).countP
          (fun x => x.eventoId == e.eventoId) = 1)
    ∧ (∀ e ∈ parseAndDeduplicateEvents p digest raws,
        (parsedEvents p digest raws).find?
          (fun x => x.eventoId == e.eventoId) = some e) := by
  refine ⟨dedupGo_pairwise _ _, ?_, ?_⟩
  · intro r hr e he
    have hmem : e ∈ parsedEvents p digest raws :=
      List.mem_filterMap.mpr ⟨r, hr, he⟩
    have hex := @dedupGo_mem_id (parsedEvents p digest raws) [] e hmem rfl
    exact countP_key_eq_one Event.eventoId _ _ (dedupGo_pairwise _ _) hex
  · intro e he
    exact dedupGo_find_first he

/-- Witness for C5: the duplicated record `rawEx` yields exactly one
output event with its id. -/
theorem dedup_unique_first_witness :
    (parseAndDeduplicateEvents pEx (fun s => s) [rawEx, rawEx]).countP
      (fun x => x.eventoId == evParsedEx.eventoId) = 1 :=
  (dedup_unique_first pEx (fun s => s) [rawEx, rawEx]).2.1 rawEx (by decide)
    evParsedEx (by decide)

/-- Claim C6: the generated event id depends only on the resolved name,
the start-date string as provided and the source tag, hence identical
inputs always produce identical ids, for every digest function (in the
source, md5 truncated to 12 hex chars). -/
theorem event_id_deterministic (digest : String → String) (e1 e2 : RawEvent)
    (hn : e1.nombre.getD (e1.rival.getD "desconocido") =
      e2.nombre.getD (e2.rival.getD "desconocido"))
    (hf : e1.fechaInicio.getD "" = e2.fechaInicio.getD "")
    (hs : e1.fuente.getD "" = e2.fuente.getD "") :
    generateEventId digest e1 = generateEventId digest e2 := by
  unfold generateEventId rawIdString
  rw [hn, hf, hs]

/-- Witness for C6: two records with the same (name, start, source)
triple but different end dates get the same id. -/
theorem event_id_deterministic_witness :
    generateEventId (fun s => s) rawEx = generateEventId (fun s => s) rawEx' :=
  event_id_deterministic (fun s => s) rawEx rawEx' rfl rfl rfl

/-- Claim C7: a record whose parsed end date precedes its parsed start
date has the two dates swapped rather than being rejected, so every
event surviving parsing satisfies `fecha_inicio ≤ fecha_fin`. -/
theorem date_swap_invariant (p : String → Option Nat)
    (digest : String → String) (raws : List RawEvent) :
    (∀ ev ∈ parseAndDeduplicateEvents p digest raws,
      ev.fechaInicio ≤ ev.fechaFin)
    ∧ (∀ r : RawEvent, ∀ a b : Nat,
        parseEventDate p (r.fechaInicio.getD "") = some a →
        parseEventDate p (r.fechaFin.getD "") = some b → b < a →
        ∃ e, parseOne p digest r = some e ∧
          e.fechaInicio = b ∧ e.fechaFin = a) := by
  constructor
  · intro ev hev
    rcases List.mem_filterMap.mp (mem_of_mem_dedupGo hev) with ⟨r, _, hr⟩
    exact parseOne_le hr
  · intro r a b ha hb hlt
    exact parseOne_swap ha hb hlt

/-- Witness for C7: under `pInv` the record `rawInv` arrives with
end 4 < start 9 and is normalized to the span [4, 9]. -/
theorem date_swap_invariant_witness :
    evInvParsed.fechaInicio ≤ evInvParsed.fechaFin
    ∧ ∃ e, parseOne pInv (fun s => s) rawInv = some e ∧
        e.fechaInicio = 4 ∧ e.fechaFin = 9 :=
  ⟨(date_swap_invariant pInv (fun s => s) [rawInv]).1 evInvParsed (by decide),
   (date_swap_invariant pInv (fun s => s) [rawInv]).2 rawInv 9 4 (by decide)
     (by decide) (by decide)⟩

/-! ### Lemmas about the Baseline Selector -/

theorem mem_allEventDates {events : List Event} {d : Nat} :
    d ∈ allEventDates events ↔
      ∃ ev ∈ events, d ∈ dateRange ev.fechaInicio ev.fechaFin := by
  simp [allEventDates, List.mem_dedup, List.mem_flatMap]

theorem maskNoRain_iff (meteoD : Option (List MeteoDaily)) (d : Nat) :
    maskNoRain meteoD d = true ↔
      (precipAt meteoD d = none ∨
        ∃ v, precipAt meteoD d = some v ∧ v ≤ precipitacionUmbralMm) := by
  unfold maskNoRain precipAt
  cases meteoD with
  | none => simp
  | some m =>
    dsimp only
    by_cases hm : m.isEmpty
    · rw [if_pos hm]
      have hnil : m = [] := List.isEmpty_iff.mp hm
      subst hnil
      simp
    · rw [if_neg hm]
      rcases hf : (m.find? (fun r => r.fecha == d)).bind (·.precipMedia)
        with _ | v <;> simp [hf]

/-- Claim C2: a day `d` is selected as a baseline day for event `ev`
(against the precomputed union of all event day-spans) exactly when its
month is among the months spanned by the event, its weekday is among the
weekdays spanned by the event, it lies in the span of no event of the
full set, and it either has no precipitation datum or a mean
precipitation of at most 5 mm. -/
theorem baselineDay_iff_criteria (cal : Cal) (events : List Event)
    (meteoD : Option (List MeteoDaily)) (ev : Event) (_hev : ev ∈ events)
    (d : Nat) :
    baselineDay cal ev (allEventDates events) meteoD d = true ↔
      (cal.month d ∈ (dateRange ev.fechaInicio ev.fechaFin).map cal.month
       ∧ cal.weekday d ∈ (dateRange ev.fechaInicio ev.fechaFin).map cal.weekday
       ∧ (∀ e ∈ events, d ∉ dateRange e.fechaInicio e.fechaFin)
       ∧ (precipAt meteoD d = none ∨
            ∃ v, precipAt meteoD d = some v ∧ v ≤ precipitacionUmbralMm)) := by
  unfold baselineDay
  simp only [Bool.and_eq_true, Bool.not_eq_true', List.contains,
    List.elem_eq_mem, decide_eq_true_eq, decide_eq_false_iff_not,
    maskNoRain_iff]
  constructor
  · rintro ⟨⟨⟨h1, h2⟩, h3⟩, h4⟩
    refine ⟨h1, h2, ?_, h4⟩
    intro e he hd
    exact h3 (mem_allEventDates.mpr ⟨e, he, hd⟩)
  · rintro ⟨h1, h2, h3, h4⟩
    refine ⟨⟨⟨h1, h2⟩, ?_⟩, h4⟩
    intro hd
    rcases mem_allEventDates.mp hd with ⟨e, he, hde⟩
    exact h3 e he hde

/-- Witness for C2: under `calEx`, day 3 qualifies as a baseline day for
the one-day event `evEx` on day 10 with no weather table. -/
theorem baselineDay_iff_criteria_witness :
    baselineDay calEx evEx (allEventDates [evEx]) none 3 = true :=
  (baselineDay_iff_criteria calEx [evEx] none evEx (by decide) 3).mpr
    ⟨by decide, by decide, by decide, Or.inl rfl⟩

/-! ### Lemmas about the Daily Aggregator -/

theorem contamGroupVals_ne_nil {rs : List ContamRaw} {k : Nat × String}
    (hk : k ∈ ((okContam rs).map
      (fun r => (dayOfTs r.fechaUtc, r.variable'))).dedup) :
    contamGroupVals rs k.1 k.2 ≠ [] := by
  rcases List.mem_map.mp (List.mem_dedup.mp hk) with ⟨r, hr, hrk⟩
  have hmem : r ∈ (okContam rs).filter
      (fun x => dayOfTs x.fechaUtc == k.1 && x.variable' == k.2) := by
    rw [List.mem_filter]
    refine ⟨hr, ?_⟩
    rw [← hrk]
    simp
  have hv : r.valor ∈ contamGroupVals rs k.1 k.2 :=
    List.mem_map_of_mem _ hmem
  exact List.ne_nil_of_mem hv

theorem mem_contamDiariaOf {rs : List ContamRaw} {row : DailyContam}
    (h : row ∈ contamDiariaOf rs) :
    ∃ k ∈ ((okContam rs).map
        (fun r => (dayOfTs r.fechaUtc, r.variable'))).dedup,
      row = { fecha := k.1, variable' := k.2
              valorMedio := (contamGroupVals rs k.1 k.2).sum /
                ((contamGroupVals rs k.1 k.2).length : ℚ)
              nRegistros := (contamGroupVals rs k.1 k.2).length } := by
  rcases List.mem_map.mp h with ⟨k, hk, hrow⟩
  exact ⟨k, hk, hrow.symm⟩

/-- Claim C3: the daily aggregation groups pollution records by (date
portion, variable) keeping only quality-`ok` records; each output row
carries exactly the mean and the count of those records, rows exist only
for non-empty groups (a day/variable with zero valid records yields no
row), keys are unique, and the traffic aggregation counts records per
day with a row only for days that have records. -/
theorem daily_aggregation_correct (rs : List ContamRaw) (ts : List TrafRaw) :
    (∀ row ∈ contamDiariaOf rs,
        contamGroupVals rs row.fecha row.variable' ≠ []
        ∧ row.valorMedio = (contamGroupVals rs row.fecha row.variable').sum /
            ((contamGroupVals rs row.fecha row.variable').length : ℚ)
        ∧ row.nRegistros = (contamGroupVals rs row.fecha row.variable').length)
    ∧ (∀ d v, contamGroupVals rs d v = [] →
        ∀ row ∈ contamDiariaOf rs, ¬(row.fecha = d ∧ row.variable' = v))
    ∧ (contamDiariaOf rs).Pairwise
        (fun a b => ¬(a.fecha = b.fecha ∧ a.variable' = b.variable'))
    ∧ (∀ row ∈ traficoDiarioOf ts,
        row.nIncidencias =
          (ts.filter (fun r => dayOfTs r.fecha == row.fecha)).length
        ∧ ts.filter (fun r => dayOfTs r.fecha == row.fecha) ≠ [])
    ∧ (traficoDiarioOf ts).Pairwise (fun a b => a.fecha ≠ b.fecha) := by
  refine ⟨?_, ?_, ?_, ?_, ?_⟩
  · intro row hrow
    rcases mem_contamDiariaOf hrow with ⟨k, hk, rfl⟩
    exact ⟨contamGroupVals_ne_nil hk, rfl, rfl⟩
  · intro d v hdv row hrow ⟨hd, hv⟩
    rcases mem_contamDiariaOf hrow with ⟨k, hk, rfl⟩
    apply contamGroupVals_ne_nil hk
    have hkdv : k = (d, v) := Prod.ext hd hv
    rw [hkdv]
    exact hdv
  · unfold contamDiariaOf
    rw [List.pairwise_map]
    refine List.Pairwise.imp ?_ (List.nodup_dedup _)
    intro k1 k2 hne ⟨h1, h2⟩
    exact hne (Prod.ext h1 h2)
  · intro row hrow
    rcases List.mem_map.mp hrow with ⟨d, hd, hrow'⟩
    subst hrow'
    refine ⟨rfl, ?_⟩
    rcases List.mem_map.mp (List.mem_dedup.mp hd) with ⟨r, hr, hrd⟩
    have hmem : r ∈ ts.filter (fun x => dayOfTs x.fecha == d) := by
      rw [List.mem_filter]
      exact ⟨hr, by rw [hrd]; simp⟩
    exact List.ne_nil_of_mem hmem
  · unfold traficoDiarioOf
    rw [List.pairwise_map]
    exact List.Pairwise.imp (fun hne h => hne h) (List.nodup_dedup _)

/-! ### Lemmas about the Impact Calculator -/

theorem mem_insertStr {x a : String} {l : List String} :
    x ∈ insertStr a l ↔ x = a ∨ x ∈ l := by
  induction l with
  | nil => simp [insertStr]
  | cons b rest ih =>
    rw [insertStr]
    by_cases h : strLe a b
    · rw [if_pos h]
      simp
    · rw [if_neg h]
      simp only [List.mem_cons, ih]
      tauto

theorem mem_sortStrs {x : String} {l : List String} :
    x ∈ sortStrs l ↔ x ∈ l := by
  induction l with
  | nil => simp [sortStrs]
  | cons a rest ih =>
    rw [sortStrs]
    simp [mem_insertStr, ih]

theorem dfVarOf_ne_nil_of_mem_variablesOf {contamD : Option (List DailyContam)}
    {v : String} (h : v ∈ variablesOf contamD) :
    dfVarOf (contamD.getD []) v ≠ [] := by
  unfold variablesOf at h
  cases contamD with
  | none => simp at h
  | some l =>
    dsimp only at h
    by_cases hl : l.isEmpty
    · rw [if_pos hl] at h
      simp at h
    · rw [if_neg hl] at h
      rcases List.mem_map.mp (List.mem_dedup.mp (mem_sortStrs.mp h))
        with ⟨r, hr, hrv⟩
      have hmem : r ∈ dfVarOf l v := by
        rw [dfVarOf, List.mem_filter]
        exact ⟨hr, by rw [hrv]; simp⟩
      exact List.ne_nil_of_mem hmem

theorem variablesOf_eq_nil {contamD : Option (List DailyContam)}
    (h : variablesOf contamD = []) : contamD.getD [] = [] := by
  cases contamD with
  | none => rfl
  | some l =>
    unfold variablesOf at h
    dsimp only at h
    by_cases hl : l.isEmpty
    · exact List.isEmpty_iff.mp hl
    · rw [if_neg hl] at h
      exfalso
      rcases List.exists_mem_of_ne_nil l
        (fun hnil => hl (by rw [hnil]; rfl)) with ⟨r, hr⟩
      have hmem : r.variable' ∈ sortStrs ((l.map (·.variable')).dedup) :=
        mem_sortStrs.mpr (List.mem_dedup.mpr (List.mem_map_of_mem _ hr))
      rw [h] at hmem
      simp at hmem

theorem mem_computeEventImpact {cal : Cal} {events : List Event}
    {contamD : Option (List DailyContam)} {trafD : Option (List DailyTraf)}
    {meteoD : Option (List MeteoDaily)} {row : ImpactRow}
    (h : row ∈ computeEventImpact cal events contamD trafD meteoD) :
    ∃ ev ∈ events,
      row ∈ rowsForEvent cal contamD trafD meteoD (allEventDates events) ev := by
  unfold computeEventImpact at h
  by_cases he : events.isEmpty
  · rw [if_pos he] at h
    simp at h
  · rw [if_neg he] at h
    exact List.mem_flatMap.mp h

theorem rowsForEvent_cases {cal : Cal} {contamD : Option (List DailyContam)}
    {trafD : Option (List DailyTraf)} {meteoD : Option (List MeteoDaily)}
    {allDates : List Nat} {ev : Event} {row : ImpactRow}
    (h : row ∈ rowsForEvent cal contamD trafD meteoD allDates ev) :
    (variablesOf contamD = []
      ∧ row = sinDatosRow cal trafD meteoD allDates ev)
    ∨ (∃ v ∈ variablesOf contamD, dfVarOf (contamD.getD []) v ≠ [] ∧
        row = mkVarRow cal (contamD.getD []) trafD meteoD allDates ev v) := by
  simp only [rowsForEvent] at h
  by_cases hv : (variablesOf contamD).isEmpty
  · rw [if_pos hv] at h
    simp at h
    exact Or.inl ⟨List.isEmpty_iff.mp hv, h⟩
  · rw [if_neg hv] at h
    rcases List.mem_flatMap.mp h with ⟨v, hvm, hrow⟩
    by_cases hdf : (dfVarOf (contamD.getD []) v).isEmpty
    · rw [if_pos hdf] at hrow
      simp at hrow
    · rw [if_neg hdf] at hrow
      simp at hrow
      exact Or.inr ⟨v, hvm,
        fun hnil => hdf (by rw [hnil]; rfl), hrow⟩

theorem mkVarRow_eventoId (cal : Cal) (contamList : List DailyContam)
    (trafD : Option (List DailyTraf)) (meteoD : Option (List MeteoDaily))
    (allDates : List Nat) (ev : Event) (v : String) :
    (mkVarRow cal contamList trafD meteoD allDates ev v).eventoId =
      ev.eventoId := rfl

theorem mkVarRow_impactoPct (cal : Cal) (contamList : List DailyContam)
    (trafD : Option (List DailyTraf)) (meteoD : Option (List MeteoDaily))
    (allDates : List Nat) (ev : Event) (v : String) :
    (mkVarRow cal contamList trafD meteoD allDates ev v).impactoPct =
      (impactoPctCore
        (meanQ ((datosEvOf contamList (dateRange ev.fechaInicio ev.fechaFin)
          v).map (·.valorMedio)))
        (meanQ ((datosBlOf cal contamList ev allDates meteoD v).map
          (·.valorMedio)))).map (pyRound 2) := rfl

theorem mkVarRow_nDias (cal : Cal) (contamList : List DailyContam)
    (trafD : Option (List DailyTraf)) (meteoD : Option (List MeteoDaily))
    (allDates : List Nat) (ev : Event) (v : String) :
    (mkVarRow cal contamList trafD meteoD allDates ev v).nDiasEvento =
      (((datosEvOf contamList (dateRange ev.fechaInicio ev.fechaFin) v).map
        (·.fecha)).dedup).length
    ∧ (mkVarRow cal contamList trafD meteoD allDates ev v).nDiasBaseline =
      (((datosBlOf cal contamList ev allDates meteoD v).map
        (·.fecha)).dedup).length := ⟨rfl, rfl⟩

theorem mkVarRow_trafico (cal : Cal) (contamList : List DailyContam)
    (trafD : Option (List DailyTraf)) (meteoD : Option (List MeteoDaily))
    (allDates : List Nat) (ev : Event) (v : String) :
    (mkVarRow cal contamList trafD meteoD allDates ev v).impactoTraficoPct =
      (trafficImpactPctOf cal trafD meteoD allDates ev).map (pyRound 2) := rfl

theorem sinDatosRow_fields (cal : Cal) (trafD : Option (List DailyTraf))
    (meteoD : Option (List MeteoDaily)) (allDates : List Nat) (ev : Event) :
    (sinDatosRow cal trafD meteoD allDates ev).eventoId = ev.eventoId
    ∧ (sinDatosRow cal trafD meteoD allDates ev).variable' = "sin_datos"
    ∧ (sinDatosRow cal trafD meteoD allDates ev).mediaEvento = none
    ∧ (sinDatosRow cal trafD meteoD allDates ev).mediaBaseline = none
    ∧ (sinDatosRow cal trafD meteoD allDates ev).impactoPct = none
    ∧ (sinDatosRow cal trafD meteoD allDates ev).impactoTraficoPct =
        (trafficImpactPctOf cal trafD meteoD allDates ev).map (pyRound 2) :=
  ⟨rfl, rfl, rfl, rfl, rfl, rfl⟩

theorem rowsForEvent_eventoId {cal : Cal} {contamD : Option (List DailyContam)}
    {trafD : Option (List DailyTraf)} {meteoD : Option (List MeteoDaily)}
    {allDates : List Nat} {ev : Event} {row : ImpactRow}
    (h : row ∈ rowsForEvent cal contamD trafD meteoD allDates ev) :
    row.eventoId = ev.eventoId := by
  rcases rowsForEvent_cases h with ⟨_, rfl⟩ | ⟨v, _, _, rfl⟩ <;> rfl

theorem event_eq_of_id {events : List Event}
    (hp : events.Pairwise (fun a b => a.eventoId ≠ b.eventoId))
    {a b : Event} (ha : a ∈ events) (hb : b ∈ events)
    (hid : a.eventoId = b.eventoId) : a = b := by
  by_contra hne
  have hsymm : Symmetric (fun a b : Event => a.eventoId ≠ b.eventoId) :=
    fun x y h heq => h heq.symm
  exact List.Pairwise.forall hsymm hp ha hb hne hid

theorem exists_row_rowsForEvent (cal : Cal)
    (contamD : Option (List DailyContam)) (trafD : Option (List DailyTraf))
    (meteoD : Option (List MeteoDaily)) (allDates : List Nat) (ev : Event) :
    ∃ row ∈ rowsForEvent cal contamD trafD meteoD allDates ev,
      row.eventoId = ev.eventoId := by
  simp only [rowsForEvent]
  by_cases hv : (variablesOf contamD).isEmpty
  · rw [if_pos hv]
    exact ⟨_, List.mem_cons_self _ _, rfl⟩
  · rw [if_neg hv]
    rcases List.exists_mem_of_ne_nil (variablesOf contamD)
      (fun h => hv (by rw [h]; rfl)) with ⟨v, hvm⟩
    have hdf := dfVarOf_ne_nil_of_mem_variablesOf hvm
    refine ⟨mkVarRow cal (contamD.getD []) trafD meteoD allDates ev v, ?_, rfl⟩
    apply List.mem_flatMap.mpr
    refine ⟨v, hvm, ?_⟩
    rw [if_neg (fun hh => hdf (List.isEmpty_iff.mp hh))]
    exact List.mem_cons_self _ _

theorem meanQ_some_ne_nil {xs : List ℚ} {q : ℚ} (h : meanQ xs = some q) :
    xs ≠ [] := by
  unfold meanQ at h
  by_cases hx : xs.isEmpty
  · rw [if_pos hx] at h
    cases h
  · exact fun hnil => hx (by rw [hnil]; rfl)

theorem impactoPctCore_ne_none {a b : Option ℚ}
    (h : impactoPctCore a b ≠ none) :
    ∃ x y, a = some x ∧ b = some y ∧ 0 < y := by
  cases a with
  | none => simp [impactoPctCore] at h
  | some x =>
    cases b with
    | none => simp [impactoPctCore] at h
    | some y =>
      by_cases hy : 0 < y
      · exact ⟨x, y, rfl, rfl, hy⟩
      · simp [impactoPctCore, hy] at h

theorem map_pyRound_impactoPctCore (a b : Option ℚ) :
    (impactoPctCore a b).map (pyRound 2) =
      match a, b with
      | some e, some bb =>
        if 0 < bb then some (pyRound 2 ((e - bb) / bb * 100)) else none
      | _, _ => none := by
  cases a with
  | none => cases b <;> rfl
  | some e =>
    cases b with
    | none => rfl
    | some bb =>
      by_cases h : 0 < bb
      · simp [impactoPctCore, h]
      · simp [impactoPctCore, h]

theorem one_le_dedup_length {α : Type} [DecidableEq α] {l : List α}
    (h : l ≠ []) : 1 ≤ l.dedup.length :=
  List.length_pos.mpr (fun hnil => h ((List.dedup_eq_nil l).mp hnil))

theorem flatMap_singleton_map {α β : Type} (f : α → β) (l : List α) :
    (l.flatMap fun x => [f x]) = l.map f := by
  induction l with
  | nil => rfl
  | cons a rest ih => simp [ih]

/-- Witness for C3: for the sample raw tables, the day-0 pollution row
has mean 15 and count 2, and the day-1 traffic row counts 2 records. -/
theorem daily_aggregation_correct_witness :
    (contamGroupVals contamRawEx contamRowEx.fecha contamRowEx.variable' ≠ []
     ∧ contamRowEx.valorMedio =
        (contamGroupVals contamRawEx contamRowEx.fecha
          contamRowEx.variable').sum /
          ((contamGroupVals contamRawEx contamRowEx.fecha
            contamRowEx.variable').length : ℚ)
     ∧ contamRowEx.nRegistros =
        (contamGroupVals contamRawEx contamRowEx.fecha
          contamRowEx.variable').length)
    ∧ (trafRowEx.nIncidencias =
        (trafRawEx.filter (fun r => dayOfTs r.fecha == trafRowEx.fecha)).length
       ∧ trafRawEx.filter (fun r => dayOfTs r.fecha == trafRowEx.fecha) ≠ []) :=
  ⟨(daily_aggregation_correct contamRawEx trafRawEx).1 contamRowEx (by decide),
   (daily_aggregation_correct contamRawEx trafRawEx).2.2.2.1 trafRowEx
     (by decide)⟩

/-- Claim C1 (amended): in every output row the impact percentage is the
guarded formula `(mean_during - mean_baseline) / mean_baseline * 100`,
rounded half-to-even to 2 decimals, when both means are defined and the
baseline mean is strictly positive; in every other case it is the
missing-value marker `none` (never a numeric zero, never infinity). -/
theorem impacto_pct_eq_rounded_formula (cal : Cal) (events : List Event)
    (contamD : Option (List DailyContam)) (trafD : Option (List DailyTraf))
    (meteoD : Option (List MeteoDaily))
    (hids : events.Pairwise (fun a b => a.eventoId ≠ b.eventoId))
    (ev : Event) (hev : ev ∈ events) (row : ImpactRow)
    (hrow : row ∈ computeEventImpact cal events contamD trafD meteoD)
    (hid : row.eventoId = ev.eventoId) :
    row.impactoPct =
      match
        meanQ ((datosEvOf (contamD.getD [])
          (dateRange ev.fechaInicio ev.fechaFin) row.variable').map
          (·.valorMedio)),
        meanQ ((datosBlOf cal (contamD.getD []) ev (allEventDates events)
          meteoD row.variable').map (·.valorMedio)) with
      | some e, some b =>
        if 0 < b then some (pyRound 2 ((e - b) / b * 100)) else none
      | _, _ => none := by
  rcases mem_computeEventImpact hrow with ⟨gen, hgen, hre⟩
  have hgid : row.eventoId = gen.eventoId := rowsForEvent_eventoId hre
  have hge : gen = ev := event_eq_of_id hids hgen hev (by rw [← hgid, hid])
  subst hge
  rcases rowsForEvent_cases hre with ⟨hvars, rfl⟩ | ⟨v, hv, hdf, rfl⟩
  · rw [variablesOf_eq_nil hvars]
    simp [sinDatosRow, datosEvOf, dfVarOf, meanQ]
  · have hv' : (mkVarRow cal (contamD.getD []) trafD meteoD
        (allEventDates events) gen v).variable' = v := rfl
    rw [hv', mkVarRow_impactoPct]
    exact map_pyRound_impactoPctCore _ _

/-- Counterexample for C1 as literally stated: with event-day mean 4 and
baseline mean 3 (both defined, baseline positive) the output row stores
`3333/100`, the 2-decimal rounding of `100/3`, which differs from the
exact formula value `(4 - 3) / 3 * 100`. -/
theorem impacto_pct_unrounded_cex :
    (computeEventImpact calEx [evEx] (some contamEx) none none).map
        (·.impactoPct) = [some (3333/100)]
    ∧ meanQ ((datosEvOf contamEx (dateRange evEx.fechaInicio evEx.fechaFin)
        "NO2").map (·.valorMedio)) = some 4
    ∧ meanQ ((datosBlOf calEx contamEx evEx (allEventDates [evEx]) none
        "NO2").map (·.valorMedio)) = some 3
    ∧ (0:ℚ) < 3
    ∧ (3333/100 : ℚ) ≠ (4 - 3) / 3 * 100 :=
  ⟨by decide, by decide, by decide, by decide, by decide⟩

/-- Witness for C1 (amended): the concrete row carries the rounded
formula value `3333/100`. -/
theorem impacto_pct_eq_rounded_formula_witness :
    rowC1.impactoPct = some (3333/100) :=
  (impacto_pct_eq_rounded_formula calEx [evEx] (some contamEx) none none
    (by decide) evEx (by decide) rowC1 (by decide) (by decide)).trans
    (by decide)

/-- Claim C4: every event in the (deduplicated) event list appears in at
least one output row; when no pollution variable is available at all,
each event yields exactly one row, whose metric fields are all the
missing-value marker and whose variable tag is `"sin_datos"`. -/
theorem event_always_has_row (cal : Cal) (events : List Event)
    (contamD : Option (List DailyContam)) (trafD : Option (List DailyTraf))
    (meteoD : Option (List MeteoDaily)) :
    (∀ ev ∈ events,
        ∃ row ∈ computeEventImpact cal events contamD trafD meteoD,
          row.eventoId = ev.eventoId)
    ∧ (variablesOf contamD = [] →
        (∀ row ∈ computeEventImpact cal events contamD trafD meteoD,
            row.variable' = "sin_datos" ∧ row.mediaEvento = none
            ∧ row.mediaBaseline = none ∧ row.impactoPct = none)
        ∧ (events.Pairwise (fun a b => a.eventoId ≠ b.eventoId) →
            ∀ ev ∈ events,
              (computeEventImpact cal events contamD trafD meteoD).countP
                (fun r => r.eventoId == ev.eventoId) = 1)) := by
  constructor
  · intro ev hev
    have hne : ¬events.isEmpty = true := by
      simpa [List.isEmpty_iff] using List.ne_nil_of_mem hev
    unfold computeEventImpact
    rw [if_neg hne]
    rcases exists_row_rowsForEvent cal contamD trafD meteoD
      (allEventDates events) ev with ⟨row, hr, hid⟩
    exact ⟨row, List.mem_flatMap.mpr ⟨ev, hev, hr⟩, hid⟩
  · intro hvars
    constructor
    · intro row hrow
      rcases mem_computeEventImpact hrow with ⟨gen, _, hre⟩
      rcases rowsForEvent_cases hre with ⟨_, rfl⟩ | ⟨v, hv, _, _⟩
      · exact ⟨rfl, rfl, rfl, rfl⟩
      · rw [hvars] at hv
        simp at hv
    · intro hp ev hev
      have hne : ¬events.isEmpty = true := by
        simpa [List.isEmpty_iff] using List.ne_nil_of_mem hev
      unfold computeEventImpact
      rw [if_neg hne]
      have hrows : rowsForEvent cal contamD trafD meteoD
          (allEventDates events) = (fun e =>
            [sinDatosRow cal trafD meteoD (allEventDates events) e]) := by
        funext e
        simp only [rowsForEvent]
        rw [if_pos (by rw [hvars]; rfl)]
      rw [hrows, flatMap_singleton_map, List.countP_map]
      exact countP_key_eq_one Event.eventoId events ev.eventoId hp
        ⟨ev, hev, rfl⟩

/-- Witness for C4: with no pollution table, `evEx` still yields exactly
one row carrying its id. -/
theorem event_always_has_row_witness :
    (∃ row ∈ computeEventImpact calEx [evEx] none (some trafEx) none,
        row.eventoId = evEx.eventoId)
    ∧ (computeEventImpact calEx [evEx] none (some trafEx) none).countP
        (fun r => r.eventoId == evEx.eventoId) = 1 :=
  ⟨(event_always_has_row calEx [evEx] none (some trafEx) none).1 evEx
      (by decide),
   ((event_always_has_row calEx [evEx] none (some trafEx) none).2 rfl).2
      (by decide) evEx (by decide)⟩

/-- Claim C8: the traffic impact is a single per-event figure (event
window mean of daily incident counts against the event's own traffic
baseline) and every output row of an event carries that same figure, so
rows sharing an `evento_id` agree on `impacto_trafico_pct`. -/
theorem traffic_impact_replicated (cal : Cal) (events : List Event)
    (contamD : Option (List DailyContam)) (trafD : Option (List DailyTraf))
    (meteoD : Option (List MeteoDaily))
    (hids : events.Pairwise (fun a b => a.eventoId ≠ b.eventoId)) :
    (∀ ev ∈ events,
        ∀ row ∈ computeEventImpact cal events contamD trafD meteoD,
          row.eventoId = ev.eventoId →
          row.impactoTraficoPct =
            (trafficImpactPctOf cal trafD meteoD (allEventDates events)
              ev).map (pyRound 2))
    ∧ (∀ r1 ∈ computeEventImpact cal events contamD trafD meteoD,
        ∀ r2 ∈ computeEventImpact cal events contamD trafD meteoD,
          r1.eventoId = r2.eventoId →
          r1.impactoTraficoPct = r2.impactoTraficoPct) := by
  have key : ∀ ev ∈ events,
      ∀ row ∈ computeEventImpact cal events contamD trafD meteoD,
        row.eventoId = ev.eventoId →
        row.impactoTraficoPct =
          (trafficImpactPctOf cal trafD meteoD (allEventDates events)
            ev).map (pyRound 2) := by
    intro ev hev row hrow hid
    rcases mem_computeEventImpact hrow with ⟨gen, hgen, hre⟩
    have hge : gen = ev := event_eq_of_id hids hgen hev
      (by rw [← rowsForEvent_eventoId hre, hid])
    subst hge
    rcases rowsForEvent_cases hre with ⟨_, rfl⟩ | ⟨v, _, _, rfl⟩ <;> rfl
  refine ⟨key, ?_⟩
  intro r1 h1 r2 h2 hid
  rcases mem_computeEventImpact h1 with ⟨e1, he1, hr1⟩
  rcases mem_computeEventImpact h2 with ⟨e2, he2, hr2⟩
  have hid1 := rowsForEvent_eventoId hr1
  have hid2 := rowsForEvent_eventoId hr2
  have he : e1 = e2 := event_eq_of_id hids he1 he2
    (by rw [← hid1, hid, hid2])
  rw [key e1 he1 r1 h1 hid1, key e2 he2 r2 h2 hid2, he]

/-- Witness for C8: the concrete row of `evEx` carries the per-event
traffic figure `(4 - 2) / 2 * 100 = 100`. -/
theorem traffic_impact_replicated_witness :
    rowC8.impactoTraficoPct =
      (trafficImpactPctOf calEx (some trafEx) none (allEventDates [evEx])
        evEx).map (pyRound 2) :=
  (traffic_impact_replicated calEx [evEx] (some contamEx) (some trafEx) none
    (by decide)).1 evEx (by decide) rowC8 (by decide) (by decide)

/-- Claim C10: whenever a row's impact percentage is defined, both of its
day counts are at least 1, because a defined impact needs a non-empty
event window and a non-empty baseline window of observed values. -/
theorem defined_impact_positive_days (cal : Cal) (events : List Event)
    (contamD : Option (List DailyContam)) (trafD : Option (List DailyTraf))
    (meteoD : Option (List MeteoDaily)) :
    ∀ row ∈ computeEventImpact cal events contamD trafD meteoD,
      row.impactoPct ≠ none →
      1 ≤ row.nDiasEvento ∧ 1 ≤ row.nDiasBaseline := by
  intro row hrow hdef
  rcases mem_computeEventImpact hrow with ⟨ev, _, hre⟩
  rcases rowsForEvent_cases hre with ⟨_, rfl⟩ | ⟨v, _, _, rfl⟩
  · exact absurd rfl hdef
  · rw [mkVarRow_impactoPct] at hdef
    have hcore : impactoPctCore
        (meanQ ((datosEvOf (contamD.getD [])
          (dateRange ev.fechaInicio ev.fechaFin) v).map (·.valorMedio)))
        (meanQ ((datosBlOf cal (contamD.getD []) ev (allEventDates events)
          meteoD v).map (·.valorMedio))) ≠ none := by
      intro hnone
      rw [hnone] at hdef
      exact hdef rfl
    rcases impactoPctCore_ne_none hcore with ⟨x, y, hx, hy, _⟩
    have hev_ne := meanQ_some_ne_nil hx
    have hbl_ne := meanQ_some_ne_nil hy
    rw [(mkVarRow_nDias cal (contamD.getD []) trafD meteoD
      (allEventDates events) ev v).1,
      (mkVarRow_nDias cal (contamD.getD []) trafD meteoD
      (allEventDates events) ev v).2]
    constructor
    · apply one_le_dedup_length
      intro hnil
      have h1 := List.map_eq_nil_iff.mp hnil
      exact hev_ne (by rw [h1]; rfl)
    · apply one_le_dedup_length
      intro hnil
      have h1 := List.map_eq_nil_iff.mp hnil
      exact hbl_ne (by rw [h1]; rfl)

/-- Witness for C10: the concrete row has a defined impact and both day
counts equal to 1. -/
theorem defined_impact_positive_days_witness :
    1 ≤ rowC1.nDiasEvento ∧ 1 ≤ rowC1.nDiasBaseline :=
  defined_impact_positive_days calEx [evEx] (some contamEx) none none rowC1
    (by decide) (by decide)

/-- Counterexample for C9 as literally stated: with weather data and a
parseable event present but both the pollution and the traffic tables
missing, `main` aborts (produces no impact output) even though events
survive parsing — so partial data loss CAN stop the run. -/
theorem main_aborts_both_series_missing_cex :
    mainOutcome calEx none none (some [⟨0, some 1, some 1⟩]) (some [rawEx])
      pEx (fun s => s) = none
    ∧ parseAndDeduplicateEvents pEx (fun s => s) [rawEx] ≠ [] :=
  ⟨by decide, by decide⟩

/-- Claim C9 (amended): `main` stops (no impact output) exactly when the
event input is absent or empty, when every record is dropped by parsing,
or when the pollution AND traffic inputs are both missing; in every
other situation — any single missing series included — it completes and
hands a non-empty row list to the saving step. -/
theorem main_stop_conditions (cal : Cal) (dfContam : Option (List ContamRaw))
    (dfTraf : Option (List TrafRaw)) (dfMeteo : Option (List MeteoRaw))
    (p : String → Option Nat) (digest : String → String) :
    (mainOutcome cal dfContam dfTraf dfMeteo none p digest = none)
    ∧ (mainOutcome cal dfContam dfTraf dfMeteo (some []) p digest = none)
    ∧ (∀ raws : List RawEvent,
        parseAndDeduplicateEvents p digest raws = [] →
        mainOutcome cal dfContam dfTraf dfMeteo (some raws) p digest = none)
    ∧ (dfContam = none → dfTraf = none →
        ∀ raws : List RawEvent,
          mainOutcome cal dfContam dfTraf dfMeteo (some raws) p digest = none)
    ∧ (∀ raws : List RawEvent, raws ≠ [] →
        (dfContam ≠ none ∨ dfTraf ≠ none) →
        parseAndDeduplicateEvents p digest raws ≠ [] →
        ∃ rows,
          mainOutcome cal dfContam dfTraf dfMeteo (some raws) p digest =
            some rows ∧ rows ≠ []) := by
  refine ⟨rfl, rfl, ?_, ?_, ?_⟩
  · intro raws hparse
    simp only [mainOutcome]
    by_cases h1 : raws.isEmpty
    · rw [if_pos h1]
    · rw [if_neg h1]
      by_cases h2 : (dfContam.isNone && dfTraf.isNone) = true
      · rw [if_pos h2]
      · rw [if_neg h2]
        rw [if_pos (by rw [hparse]; rfl)]
  · intro hc ht raws
    subst hc
    subst ht
    simp only [mainOutcome]
    by_cases h1 : raws.isEmpty
    · rw [if_pos h1]
    · rw [if_neg h1]
      rfl
  · intro raws hne hsome hparse
    simp only [mainOutcome]
    rw [if_neg (by simpa [List.isEmpty_iff] using hne)]
    have hg : (dfContam.isNone && dfTraf.isNone) = false := by
      rcases hsome with h | h
      · cases dfContam with
        | none => exact absurd rfl h
        | some l => rfl
      · cases dfTraf with
        | none => exact absurd rfl h
        | some l => simp
    rw [if_neg (by simp [hg])]
    rw [if_neg (by simpa [List.isEmpty_iff] using hparse)]
    refine ⟨_, rfl, ?_⟩
    rcases List.exists_mem_of_ne_nil _ hparse with ⟨ev, hevm⟩
    unfold computeEventImpact
    rw [if_neg (by simpa [List.isEmpty_iff] using hparse)]
    rcases exists_row_rowsForEvent cal
      (buildDailyAggregations dfContam dfTraf dfMeteo).1
      (buildDailyAggregations dfContam dfTraf dfMeteo).2.1
      (buildDailyAggregations dfContam dfTraf dfMeteo).2.2
      (allEventDates (parseAndDeduplicateEvents p digest raws)) ev
      with ⟨row, hr, _⟩
    exact List.ne_nil_of_mem (List.mem_flatMap.mpr ⟨ev, hevm, hr⟩)

/-- Witness for C9 (amended): with the pollution table present and one
parseable event, `main` completes with a non-empty output. -/
theorem main_stop_conditions_witness :
    ∃ rows,
      mainOutcome calEx (some contamRawEx) none none (some [rawEx]) pEx
        (fun s => s) = some rows ∧ rows ≠ [] :=
  (main_stop_conditions calEx (some contamRawEx) none none pEx
    (fun s => s)).2.2.2.2 [rawEx] (by decide) (Or.inl (by decide))
    (by decide)

end

end DataDetective
